import Mathlib

/-
Verification of the Chat Widget Controller (src/templates/script.js).

The controller is browser-side event wiring: a chat form submit handler and
a refresh button click handler, each issuing one fetch and mutating the DOM.
We embed it as a pure transition system: each handler, given its input and
the outcome of its fetch, emits the ordered list of mutation events the
JavaScript performs; events are applied to an explicit UI state.
-/

namespace ChatWidget

/-- The sender class added to a message div by addMessage. -/
inductive Sender
  | user
  | ai
  deriving DecidableEq, Repr

/-- One child of the chat-messages container: either a message div created by
addMessage, or the typing-indicator div created by showTypingIndicator. -/
inductive LogEntry
  | message (text : String) (sender : Sender)
  | typingIndicator
  deriving DecidableEq, Repr

/-- Requests issued by fetch: POST /api/chat with a query payload, or
POST /api/refresh-data with no payload. -/
inductive Request
  | chat (query : String)
  | refresh
  deriving DecidableEq, Repr

/-- The parsed JSON body of a /api/chat response when it is an object. The
response field models data.response; None when the key is absent.
JavaScript truthiness on a string field: absent or empty string is falsy.
ChatBody below extends this to non-object JSON bodies. -/
structure ChatData where
  response : Option String
  deriving DecidableEq, Repr

/-- The parsed JSON body of a /api/refresh-data response; message models
data.message. -/
structure RefreshData where
  message : Option String
  deriving DecidableEq, Repr

/-- Outcome of the awaited fetch plus response.json() in the chat submit
handler, restricted to object bodies: either both complete with an object
body (with the HTTP status code, which the code never inspects), or one of
them throws (network failure or JSON parse failure), reaching the catch
block. QueryResult below is the full outcome type that also covers
completed non-object bodies such as the JSON literal null. -/
inductive QueryOutcome
  | ok (status : Nat) (data : ChatData)
  | fail
  deriving DecidableEq, Repr

/-- Outcome of the awaited fetch plus response.json() in the refresh click
handler. -/
inductive RefreshOutcome
  | ok (status : Nat) (data : RefreshData)
  | fail
  deriving DecidableEq, Repr

/-- The individual DOM / side-effect mutations the two handlers perform,
in source order. -/
inductive UIEvent
  | appendUserMessage (text : String)
  | clearInput
  | disableInput
  | showIndicator
  | sendChatRequest (query : String)
  | removeIndicator
  | appendAiMessage (text : String)
  | logError
  | enableInput
  | focusInput
  | showToastEv (text : String)
  | disableRefresh
  | addSpin
  | sendRefreshRequest
  | enableRefresh
  | removeSpin
  deriving DecidableEq, Repr

/-- The UI state owned by the controller: the message log, the input field,
the refresh button, the toast element with its pending dismissal timers
(absolute fire times), the issued requests and the console error count. -/
structure UIState where
  log : List LogEntry
  inputValue : String
  inputDisabled : Bool
  inputFocused : Bool
  refreshDisabled : Bool
  refreshSpinning : Bool
  toastText : String
  toastShow : Bool
  toastTimers : List Nat
  now : Nat
  requests : List Request
  consoleErrors : Nat
  deriving DecidableEq, Repr

/-- True on the typing-indicator entry (the div with id typing-indicator). -/
def isTyping : LogEntry → Bool
  | LogEntry.typingIndicator => true
  | _ => false

/-- removeTypingIndicator: getElementById finds the first element with the
id and removes it; a no-op when none exists. -/
def removeFirstIndicator : List LogEntry → List LogEntry
  | [] => []
  | e :: es => if isTyping e then es else e :: removeFirstIndicator es

/-- Semantics of one mutation event on the UI state, mirroring the
corresponding JavaScript statement. showToastEv mirrors showToast: set the
text, add the show class, and schedule removal of the show class 3000 ms
later (the pending timer is appended, never cancelled). -/
def applyEvent (s : UIState) : UIEvent → UIState
  | UIEvent.appendUserMessage t => { s with log := s.log ++ [LogEntry.message t Sender.user] }
  | UIEvent.clearInput => { s with inputValue := "" }
  | UIEvent.disableInput => { s with inputDisabled := true }
  | UIEvent.showIndicator => { s with log := s.log ++ [LogEntry.typingIndicator] }
  | UIEvent.sendChatRequest q => { s with requests := s.requests ++ [Request.chat q] }
  | UIEvent.removeIndicator => { s with log := removeFirstIndicator s.log }
  | UIEvent.appendAiMessage t => { s with log := s.log ++ [LogEntry.message t Sender.ai] }
  | UIEvent.logError => { s with consoleErrors := s.consoleErrors + 1 }
  | UIEvent.enableInput => { s with inputDisabled := false }
  | UIEvent.focusInput => { s with inputFocused := true }
  | UIEvent.showToastEv m =>
      { s with toastText := m, toastShow := true, toastTimers := s.toastTimers ++ [s.now + 3000] }
  | UIEvent.disableRefresh => { s with refreshDisabled := true }
  | UIEvent.addSpin => { s with refreshSpinning := true }
  | UIEvent.sendRefreshRequest => { s with requests := s.requests ++ [Request.refresh] }
  | UIEvent.enableRefresh => { s with refreshDisabled := false }
  | UIEvent.removeSpin => { s with refreshSpinning := false }

/-- Run a sequence of mutation events from a state. -/
def run (s : UIState) (es : List UIEvent) : UIState :=
  es.foldl applyEvent s

/-- Advance the clock to time t and fire every pending toast timer whose
deadline has passed: each setTimeout callback removes the show class. -/
def fireDueTimers (s : UIState) (t : Nat) : UIState :=
  { s with
    now := t,
    toastShow := if s.toastTimers.any (fun d => decide (d ≤ t)) then false else s.toastShow,
    toastTimers := s.toastTimers.filter (fun d => decide (t < d)) }

/-- The trim applied to the input field value, as in value.trim(): strip
leading and trailing whitespace characters. -/
def jsTrim (s : String) : String :=
  String.mk
    (((s.data.dropWhile Char.isWhitespace).reverse.dropWhile Char.isWhitespace).reverse)

/-- The soft-failure fallback text of the chat handler. -/
def softFailText : String := "Sorry, I encountered an error. Please try again."

/-- The transport-failure fallback text of the chat handler. -/
def connectFailText : String := "Unable to connect to the server."

/-- The refresh success fallback toast text. -/
def refreshedText : String := "Data refreshed!"

/-- The refresh failure toast text. -/
def refreshFailText : String := "Failed to refresh data."

/-- The mutation trace of the chat form submit handler, from the current
input field value and the outcome of the fetch. Mirrors the source: trim the
value; on empty, return before any mutation; otherwise append the user
message, clear and disable the input, show the typing indicator, issue the
request; then on completion remove the indicator and append the ai message
chosen by the truthiness of data.response, or on a thrown error remove the
indicator, append the connectivity fallback and log to the console; finally
re-enable and focus the input. -/
def submitEvents (inputValue : String) (o : QueryOutcome) : List UIEvent :=
  let query := jsTrim inputValue
  if query = "" then []
  else
    [UIEvent.appendUserMessage query, UIEvent.clearInput, UIEvent.disableInput,
     UIEvent.showIndicator, UIEvent.sendChatRequest query]
    ++ (match o with
        | QueryOutcome.ok _ d =>
            UIEvent.removeIndicator ::
            (match d.response with
             | some r => if r = "" then [UIEvent.appendAiMessage softFailText]
                         else [UIEvent.appendAiMessage r]
             | none => [UIEvent.appendAiMessage softFailText])
        | QueryOutcome.fail =>
            [UIEvent.removeIndicator, UIEvent.appendAiMessage connectFailText, UIEvent.logError])
    ++ [UIEvent.enableInput, UIEvent.focusInput]

/-- A JSON value a completed response.json() can yield for the chat
endpoint, as far as the handler distinguishes them: a JSON object (with its
response field when that is a string), the JSON literal null (reading
data.response from it throws a TypeError inside the try block), or any
other JSON value such as a string, number, boolean or array (reading
data.response from it yields undefined, which is falsy). -/
inductive ChatBody
  | jobject (response : Option String)
  | jnull
  | jother
  deriving DecidableEq, Repr

/-- Full outcome of the awaited fetch plus response.json() in the chat
submit handler: completed with any JSON body, or thrown (network failure or
JSON parse failure). QueryOutcome is its restriction to object bodies. -/
inductive QueryResult
  | completed (status : Nat) (body : ChatBody)
  | thrown
  deriving DecidableEq, Repr

/-- The events from the point where response.json() has completed to the
end of the try/catch, per body: for an object, remove the indicator and
append the ai message chosen by the truthiness of data.response; for the
JSON literal null, remove the indicator, then data.response throws a
TypeError and the catch block removes the (now absent) indicator again,
appends the connectivity fallback and logs to the console; for any other
JSON value, data.response is undefined and the soft fallback is appended. -/
def chatBodyEvents : ChatBody → List UIEvent
  | ChatBody.jobject r =>
      UIEvent.removeIndicator ::
      (match r with
       | some t => if t = "" then [UIEvent.appendAiMessage softFailText]
                   else [UIEvent.appendAiMessage t]
       | none => [UIEvent.appendAiMessage softFailText])
  | ChatBody.jnull =>
      [UIEvent.removeIndicator, UIEvent.removeIndicator,
       UIEvent.appendAiMessage connectFailText, UIEvent.logError]
  | ChatBody.jother =>
      [UIEvent.removeIndicator, UIEvent.appendAiMessage softFailText]

/-- The mutation trace of the chat submit handler over the full outcome
type, covering completed non-object bodies as well as thrown fetches and
parses. -/
def submitEventsFull (inputValue : String) (r : QueryResult) : List UIEvent :=
  let query := jsTrim inputValue
  if query = "" then []
  else
    [UIEvent.appendUserMessage query, UIEvent.clearInput, UIEvent.disableInput,
     UIEvent.showIndicator, UIEvent.sendChatRequest query]
    ++ (match r with
        | QueryResult.completed _ b => chatBodyEvents b
        | QueryResult.thrown =>
            [UIEvent.removeIndicator, UIEvent.appendAiMessage connectFailText,
             UIEvent.logError])
    ++ [UIEvent.enableInput, UIEvent.focusInput]

/-- The mutation trace of the refresh button click handler: disable the
button and add the spinning class, issue the request; show the toast with
data.message or the fallback (JavaScript or-else on a falsy field), or the
failure toast on a thrown error; finally re-enable the button and remove the
spinning class. -/
def refreshEvents (o : RefreshOutcome) : List UIEvent :=
  [UIEvent.disableRefresh, UIEvent.addSpin, UIEvent.sendRefreshRequest]
  ++ (match o with
      | RefreshOutcome.ok _ d =>
          [UIEvent.showToastEv
            (match d.message with
             | some m => if m = "" then refreshedText else m
             | none => refreshedText)]
      | RefreshOutcome.fail => [UIEvent.showToastEv refreshFailText])
  ++ [UIEvent.enableRefresh, UIEvent.removeSpin]

/-- Number of typing-indicator entries in a log. -/
def countTyping (l : List LogEntry) : Nat :=
  l.countP isTyping

/-- Number of user messages in a log. -/
def countUserMsgs (l : List LogEntry) : Nat :=
  l.countP (fun e => match e with
    | LogEntry.message _ Sender.user => true
    | _ => false)

/-- The largest number of typing-indicator entries present at any point
(before, between or after events) while running a trace. -/
def maxTyping (s : UIState) : List UIEvent → Nat
  | [] => countTyping s.log
  | e :: es => max (countTyping s.log) (maxTyping (applyEvent s e) es)

/-- The concatenated mutation trace of a sequence of submit-handler runs,
one (input value, outcome) pair per run. -/
def submitSeqEvents : List (String × QueryOutcome) → List UIEvent
  | [] => []
  | c :: cs => submitEvents c.1 c.2 ++ submitSeqEvents cs

/-- A fresh page state: empty log, enabled controls, no pending timers. -/
def initState : UIState :=
  { log := [], inputValue := "", inputDisabled := false, inputFocused := false,
    refreshDisabled := false, refreshSpinning := false, toastText := "",
    toastShow := false, toastTimers := [], now := 0, requests := [],
    consoleErrors := 0 }

/-- The kind of a UI mutation, forgetting payloads; request sends and console
logging are not UI mutations and are not kinds. -/
inductive MutKind
  | appendUserK
  | clearK
  | disableInputK
  | showIndK
  | removeIndK
  | appendAiK
  | enableInputK
  | focusK
  | toastK
  | disableRefreshK
  | spinOnK
  | enableRefreshK
  | spinOffK
  deriving DecidableEq, Repr

/-- Projection of an event to its UI-mutation kind; none for the events that
do not mutate the UI (requests, console logging). -/
def mutKind : UIEvent → Option MutKind
  | UIEvent.appendUserMessage _ => some MutKind.appendUserK
  | UIEvent.clearInput => some MutKind.clearK
  | UIEvent.disableInput => some MutKind.disableInputK
  | UIEvent.showIndicator => some MutKind.showIndK
  | UIEvent.sendChatRequest _ => none
  | UIEvent.removeIndicator => some MutKind.removeIndK
  | UIEvent.appendAiMessage _ => some MutKind.appendAiK
  | UIEvent.logError => none
  | UIEvent.enableInput => some MutKind.enableInputK
  | UIEvent.focusInput => some MutKind.focusK
  | UIEvent.showToastEv _ => some MutKind.toastK
  | UIEvent.disableRefresh => some MutKind.disableRefreshK
  | UIEvent.addSpin => some MutKind.spinOnK
  | UIEvent.sendRefreshRequest => none
  | UIEvent.enableRefresh => some MutKind.enableRefreshK
  | UIEvent.removeSpin => some MutKind.spinOffK

/-- True on events that log to the console (the catch block diagnostics). -/
def isLogError : UIEvent → Bool
  | UIEvent.logError => true
  | _ => false

/-- True on the event that removes the typing indicator. -/
def isRemoveInd : UIEvent → Bool
  | UIEvent.removeIndicator => true
  | _ => false

/-- True on the event that shows the typing indicator. -/
def isShowInd : UIEvent → Bool
  | UIEvent.showIndicator => true
  | _ => false

/-- The innerHTML string addMessage assigns to the message div: the text is
interpolated into the template literal with no escaping. -/
def messageInnerHTML (text : String) : String :=
  "<div class=\"content\">" ++ text ++ "</div>"

/-- Minimal model of how a browser displays an HTML string as visible text:
characters inside tags (between an opening angle bracket and the next closing
one) are markup and are not displayed; the rest is displayed. The flag is
true while scanning inside a tag. -/
def renderChars : Bool → List Char → List Char
  | _, [] => []
  | true, c :: cs => if c = '>' then renderChars false cs else renderChars true cs
  | false, c :: cs =>
      if c = '<' then renderChars true cs else c :: renderChars false cs

/-- The visible text of a message appended by addMessage with the given text:
the HTML interpretation of the unescaped innerHTML. -/
def displayedMessageText (text : String) : String :=
  String.mk (renderChars false (messageInnerHTML text).data)

/-- The standard HTML escaping addMessage does NOT perform, for contrast:
ampersands and angle brackets become character entities. -/
def escapeChars : List Char → List Char
  | [] => []
  | c :: cs =>
      if c = '&' then '&' :: 'a' :: 'm' :: 'p' :: ';' :: escapeChars cs
      else if c = '<' then '&' :: 'l' :: 't' :: ';' :: escapeChars cs
      else if c = '>' then '&' :: 'g' :: 't' :: ';' :: escapeChars cs
      else c :: escapeChars cs

/-- String-level HTML escaping. -/
def htmlEscape (s : String) : String :=
  String.mk (escapeChars s.data)

/-! ### Basic lemmas about the log operations -/

theorem countTyping_append (l m : List LogEntry) :
    countTyping (l ++ m) = countTyping l + countTyping m := by
  simp [countTyping, List.countP_append]

theorem countTyping_removeFirst (l : List LogEntry) :
    countTyping (removeFirstIndicator l) = countTyping l - 1 := by
  induction l with
  | nil => rfl
  | cons a l ih =>
    by_cases h : isTyping a
    · simp [removeFirstIndicator, h, countTyping, List.countP_cons]
    · simp [removeFirstIndicator, h, countTyping, List.countP_cons] at ih ⊢
      omega

theorem removeFirst_append_of_zero (l m : List LogEntry) (h : countTyping l = 0) :
    removeFirstIndicator (l ++ m) = l ++ removeFirstIndicator m := by
  induction l with
  | nil => rfl
  | cons a l ih =>
    cases a with
    | typingIndicator =>
      exact absurd h (by simp [countTyping, List.countP_cons, isTyping])
    | message t snd =>
      have hl : countTyping l = 0 := by
        simpa [countTyping, List.countP_cons, isTyping] using h
      simp [removeFirstIndicator, isTyping, ih hl]

theorem countUserMsgs_append (l m : List LogEntry) :
    countUserMsgs (l ++ m) = countUserMsgs l + countUserMsgs m := by
  simp [countUserMsgs, List.countP_append]

theorem countUserMsgs_singleton_user (t : String) :
    countUserMsgs [LogEntry.message t Sender.user] = 1 := by
  simp [countUserMsgs, List.countP_cons]

theorem countUserMsgs_singleton_ai (t : String) :
    countUserMsgs [LogEntry.message t Sender.ai] = 0 := by
  simp [countUserMsgs, List.countP_cons]

theorem countUserMsgs_singleton_typing :
    countUserMsgs [LogEntry.typingIndicator] = 0 := by
  simp [countUserMsgs, List.countP_cons]

theorem countTyping_singleton_msg (t : String) (snd : Sender) :
    countTyping [LogEntry.message t snd] = 0 := by
  simp [countTyping, List.countP_cons, isTyping]

theorem countTyping_singleton_typing :
    countTyping [LogEntry.typingIndicator] = 1 := by
  simp [countTyping, List.countP_cons, isTyping]

theorem countTyping_pair_user_typing (t : String) :
    countTyping [LogEntry.message t Sender.user, LogEntry.typingIndicator] = 1 := by
  simp [countTyping, List.countP_cons, isTyping]

theorem removeFirst_user_typing (t : String) :
    removeFirstIndicator [LogEntry.message t Sender.user, LogEntry.typingIndicator]
      = [LogEntry.message t Sender.user] := by
  simp [removeFirstIndicator, isTyping]

theorem countUserMsgs_pair_user_typing (t : String) :
    countUserMsgs [LogEntry.message t Sender.user, LogEntry.typingIndicator] = 1 := by
  simp [countUserMsgs, List.countP_cons]

theorem countUserMsgs_removeFirst (l : List LogEntry) :
    countUserMsgs (removeFirstIndicator l) = countUserMsgs l := by
  induction l with
  | nil => rfl
  | cons a l ih =>
    by_cases h : isTyping a
    · cases a with
      | message t snd => simp [isTyping] at h
      | typingIndicator =>
        simp [removeFirstIndicator, isTyping, countUserMsgs, List.countP_cons]
    · simp [removeFirstIndicator, h, countUserMsgs, List.countP_cons] at ih ⊢
      omega

/-! ### Claim theorems -/

/-- Claim C1: for every input string, the submit handler appends exactly one
user Message and issues exactly one request to the query endpoint when the
trimmed input is non-empty (the Message append preceding the request), and
performs no mutation at all (no Message, no request) when the trimmed input
is empty. -/
theorem submit_one_message_one_request (s : UIState) (v : String) (o : QueryOutcome) :
    (jsTrim v = "" → submitEvents v o = [] ∧ run s (submitEvents v o) = s) ∧
    (jsTrim v ≠ "" →
      countUserMsgs (run s (submitEvents v o)).log = countUserMsgs s.log + 1 ∧
      (run s (submitEvents v o)).requests = s.requests ++ [Request.chat (jsTrim v)] ∧
      List.Sublist [UIEvent.appendUserMessage (jsTrim v), UIEvent.sendChatRequest (jsTrim v)]
        (submitEvents v o)) := by
  constructor
  · intro h
    constructor
    · simp [submitEvents, h]
    · simp [submitEvents, h, run]
  · intro h
    refine ⟨?_, ?_, ?_⟩
    · cases o with
      | ok st d =>
        cases hd : d.response with
        | none =>
          simp [submitEvents, h, hd, run, applyEvent, countUserMsgs_removeFirst,
            countUserMsgs_append, countUserMsgs_singleton_user, countUserMsgs_singleton_ai,
            countUserMsgs_singleton_typing, countUserMsgs_pair_user_typing]
        | some r =>
          by_cases hr : r = "" <;>
            simp [submitEvents, h, hd, hr, run, applyEvent, countUserMsgs_removeFirst,
              countUserMsgs_append, countUserMsgs_singleton_user, countUserMsgs_singleton_ai,
              countUserMsgs_singleton_typing, countUserMsgs_pair_user_typing]
      | fail =>
        simp [submitEvents, h, run, applyEvent, countUserMsgs_removeFirst,
          countUserMsgs_append, countUserMsgs_singleton_user, countUserMsgs_singleton_ai,
          countUserMsgs_singleton_typing, countUserMsgs_pair_user_typing]
    · cases o with
      | ok st d =>
        cases hd : d.response with
        | none => simp [submitEvents, h, hd, run, applyEvent]
        | some r => by_cases hr : r = "" <;> simp [submitEvents, h, hd, hr, run, applyEvent]
      | fail => simp [submitEvents, h, run, applyEvent]
    · cases o with
      | ok st d =>
        cases hd : d.response with
        | none =>
          simp only [submitEvents, h, if_neg h, List.cons_append, List.nil_append, hd]
          exact List.Sublist.cons₂ _ (List.Sublist.cons _ (List.Sublist.cons _
            (List.Sublist.cons _ (List.Sublist.cons₂ _ (List.nil_sublist _)))))
        | some r =>
          by_cases hr : r = "" <;>
          · simp only [submitEvents, h, if_neg h, List.cons_append, List.nil_append, hd, hr]
            exact List.Sublist.cons₂ _ (List.Sublist.cons _ (List.Sublist.cons _
              (List.Sublist.cons _ (List.Sublist.cons₂ _ (List.nil_sublist _)))))
      | fail =>
        simp only [submitEvents, h, if_neg h, List.cons_append, List.nil_append]
        exact List.Sublist.cons₂ _ (List.Sublist.cons _ (List.Sublist.cons _
          (List.Sublist.cons _ (List.Sublist.cons₂ _ (List.nil_sublist _)))))

/-- Witness for C1 at concrete inputs: a whitespace-only input is a no-op,
and the input " hi " with a successful outcome appends one user Message. -/
theorem submit_one_message_one_request_witness :
    submitEvents "   " QueryOutcome.fail = [] ∧
    countUserMsgs (run initState (submitEvents " hi "
      (QueryOutcome.ok 200 ⟨some "ok"⟩))).log = countUserMsgs initState.log + 1 :=
  ⟨((submit_one_message_one_request initState "   " QueryOutcome.fail).1 (by decide)).1,
   ((submit_one_message_one_request initState " hi "
      (QueryOutcome.ok 200 ⟨some "ok"⟩)).2 (by decide)).1⟩

/-- Claim C2: for every completed query response, if the parsed body has a
non-empty response string then the appended ai Message text equals it, and if
the field is missing or empty then the appended ai Message text equals the
soft-failure fallback; on both paths the Typing Indicator is removed before
the ai Message is appended. -/
theorem ai_message_matches_response (s : UIState) (v : String) (st : Nat) (d : ChatData)
    (h0 : countTyping s.log = 0) (hv : jsTrim v ≠ "") :
    (∀ r, d.response = some r → r ≠ "" →
      (run s (submitEvents v (QueryOutcome.ok st d))).log
        = s.log ++ [LogEntry.message (jsTrim v) Sender.user, LogEntry.message r Sender.ai] ∧
      List.Sublist [UIEvent.removeIndicator, UIEvent.appendAiMessage r]
        (submitEvents v (QueryOutcome.ok st d))) ∧
    (d.response = none ∨ d.response = some "" →
      (run s (submitEvents v (QueryOutcome.ok st d))).log
        = s.log ++ [LogEntry.message (jsTrim v) Sender.user,
                    LogEntry.message softFailText Sender.ai] ∧
      List.Sublist [UIEvent.removeIndicator, UIEvent.appendAiMessage softFailText]
        (submitEvents v (QueryOutcome.ok st d))) := by
  constructor
  · intro r hd hr
    constructor
    · simp [submitEvents, hv, hd, hr, run, applyEvent, removeFirst_append_of_zero, h0,
        removeFirst_user_typing]
    · simp only [submitEvents, if_neg hv, hd, if_neg hr, List.cons_append, List.nil_append]
      exact List.Sublist.cons _ (List.Sublist.cons _ (List.Sublist.cons _ (List.Sublist.cons _
        (List.Sublist.cons _ (List.Sublist.cons₂ _ (List.Sublist.cons₂ _
          (List.nil_sublist _)))))))
  · intro hor
    cases hor with
    | inl hd =>
      constructor
      · simp [submitEvents, hv, hd, run, applyEvent, removeFirst_append_of_zero, h0,
          removeFirst_user_typing]
      · simp only [submitEvents, if_neg hv, hd, List.cons_append, List.nil_append]
        exact List.Sublist.cons _ (List.Sublist.cons _ (List.Sublist.cons _ (List.Sublist.cons _
          (List.Sublist.cons _ (List.Sublist.cons₂ _ (List.Sublist.cons₂ _
            (List.nil_sublist _)))))))
    | inr hd =>
      constructor
      · simp [submitEvents, hv, hd, run, applyEvent, removeFirst_append_of_zero, h0,
          removeFirst_user_typing]
      · simp only [submitEvents, if_neg hv, hd, if_pos rfl, List.cons_append, List.nil_append]
        exact List.Sublist.cons _ (List.Sublist.cons _ (List.Sublist.cons _ (List.Sublist.cons _
          (List.Sublist.cons _ (List.Sublist.cons₂ _ (List.Sublist.cons₂ _
            (List.nil_sublist _)))))))

/-- Witness for C2: on a fresh page, input hello with response body
containing Hi! renders an ai Message Hi!, and with an empty body renders the
soft-failure fallback text. -/
theorem ai_message_matches_response_witness :
    (run initState (submitEvents "hello" (QueryOutcome.ok 200 ⟨some "Hi!"⟩))).log
      = [LogEntry.message "hello" Sender.user, LogEntry.message "Hi!" Sender.ai] ∧
    (run initState (submitEvents "hello" (QueryOutcome.ok 200 ⟨none⟩))).log
      = [LogEntry.message "hello" Sender.user, LogEntry.message softFailText Sender.ai] := by
  constructor
  · have h := ((ai_message_matches_response initState "hello" 200 ⟨some "Hi!"⟩
      (by decide) (by decide)).1 "Hi!" rfl (by decide)).1
    simpa using h
  · have h := ((ai_message_matches_response initState "hello" 200 ⟨none⟩
      (by decide) (by decide)).2 (Or.inl rfl)).1
    simpa using h

/-- Claim C3: when the request cannot complete (fetch or JSON parse throws),
the handler removes the Typing Indicator, appends an ai Message with the
connectivity fallback text, logs the error to the console, and still
completes its cleanup (the controller does not abort: the input field ends
enabled and focused). -/
theorem transport_failure_fallback (s : UIState) (v : String)
    (h0 : countTyping s.log = 0) (hv : jsTrim v ≠ "") :
    (run s (submitEvents v QueryOutcome.fail)).log
      = s.log ++ [LogEntry.message (jsTrim v) Sender.user,
                  LogEntry.message connectFailText Sender.ai] ∧
    (run s (submitEvents v QueryOutcome.fail)).consoleErrors = s.consoleErrors + 1 ∧
    List.Sublist [UIEvent.removeIndicator, UIEvent.appendAiMessage connectFailText,
        UIEvent.logError]
      (submitEvents v QueryOutcome.fail) ∧
    (run s (submitEvents v QueryOutcome.fail)).inputDisabled = false ∧
    (run s (submitEvents v QueryOutcome.fail)).inputFocused = true := by
  refine ⟨?_, ?_, ?_, ?_, ?_⟩
  · simp [submitEvents, hv, run, applyEvent, removeFirst_append_of_zero, h0,
      removeFirst_user_typing]
  · simp [submitEvents, hv, run, applyEvent]
  · simp only [submitEvents, if_neg hv, List.cons_append, List.nil_append]
    exact List.Sublist.cons _ (List.Sublist.cons _ (List.Sublist.cons _ (List.Sublist.cons _
      (List.Sublist.cons _ (List.Sublist.cons₂ _ (List.Sublist.cons₂ _
        (List.Sublist.cons₂ _ (List.nil_sublist _))))))))
  · simp [submitEvents, hv, run, applyEvent]
  · simp [submitEvents, hv, run, applyEvent]

/-- Witness for C3: on a fresh page, input hello with a transport failure
renders the connectivity fallback and increments the console error count. -/
theorem transport_failure_fallback_witness :
    (run initState (submitEvents "hello" QueryOutcome.fail)).log
      = [LogEntry.message "hello" Sender.user,
         LogEntry.message connectFailText Sender.ai] ∧
    (run initState (submitEvents "hello" QueryOutcome.fail)).consoleErrors = 1 := by
  have h := transport_failure_fallback initState "hello" (by decide) (by decide)
  exact ⟨by simpa using h.1, by simpa using h.2.1⟩

/-- Claim C4: the cleanup step runs on every outcome: after any submit-handler
completion the input field is enabled and focused, and after any
refresh-handler completion the refresh control is enabled and not spinning. -/
theorem cleanup_always_runs (s : UIState) (v : String) (o : QueryOutcome)
    (ro : RefreshOutcome) (hv : jsTrim v ≠ "") :
    ((run s (submitEvents v o)).inputDisabled = false ∧
     (run s (submitEvents v o)).inputFocused = true) ∧
    ((run s (refreshEvents ro)).refreshDisabled = false ∧
     (run s (refreshEvents ro)).refreshSpinning = false) := by
  constructor
  · cases o with
    | ok st d =>
      cases hd : d.response with
      | none => simp [submitEvents, hv, hd, run, applyEvent]
      | some r => by_cases hr : r = "" <;> simp [submitEvents, hv, hd, hr, run, applyEvent]
    | fail => simp [submitEvents, hv, run, applyEvent]
  · cases ro with
    | ok st d =>
      cases hd : d.message with
      | none => simp [refreshEvents, hd, run, applyEvent]
      | some m => by_cases hm : m = "" <;> simp [refreshEvents, hd, hm, run, applyEvent]
    | fail => simp [refreshEvents, run, applyEvent]

/-- Witness for C4 at a concrete input and outcomes. -/
theorem cleanup_always_runs_witness :
    (run initState (submitEvents "hello" QueryOutcome.fail)).inputDisabled = false ∧
    (run initState (refreshEvents RefreshOutcome.fail)).refreshDisabled = false :=
  ⟨(cleanup_always_runs initState "hello" QueryOutcome.fail RefreshOutcome.fail
      (by decide)).1.1,
   (cleanup_always_runs initState "hello" QueryOutcome.fail RefreshOutcome.fail
      (by decide)).2.1⟩

theorem run_append (s : UIState) (l1 l2 : List UIEvent) :
    run s (l1 ++ l2) = run (run s l1) l2 := by
  simp [run, List.foldl_append]

theorem maxTyping_append (s : UIState) (l1 l2 : List UIEvent) :
    maxTyping s (l1 ++ l2) = max (maxTyping s l1) (maxTyping (run s l1) l2) := by
  induction l1 generalizing s with
  | nil =>
    cases l2 with
    | nil => simp [maxTyping, run]
    | cons e es => simp [maxTyping, run, ← Nat.max_assoc]
  | cons e l1 ih =>
    simp [maxTyping, run, ih, Nat.max_assoc]

theorem maxTyping_submit_le_one (s : UIState) (v : String) (o : QueryOutcome)
    (h0 : countTyping s.log = 0) : maxTyping s (submitEvents v o) ≤ 1 := by
  by_cases hv : jsTrim v = ""
  · simp [submitEvents, hv, maxTyping, h0]
  · cases o with
    | ok st d =>
      cases hd : d.response with
      | none =>
        simp [submitEvents, hv, hd, maxTyping, applyEvent, countTyping_append,
          countTyping_removeFirst, countTyping_singleton_msg, countTyping_singleton_typing,
          countTyping_pair_user_typing, h0]
      | some r =>
        by_cases hr : r = "" <;>
          simp [submitEvents, hv, hd, hr, maxTyping, applyEvent, countTyping_append,
            countTyping_removeFirst, countTyping_singleton_msg, countTyping_singleton_typing,
            countTyping_pair_user_typing, h0]
    | fail =>
      simp [submitEvents, hv, maxTyping, applyEvent, countTyping_append,
        countTyping_removeFirst, countTyping_singleton_msg, countTyping_singleton_typing,
        countTyping_pair_user_typing, h0]

theorem countTyping_submit_end (s : UIState) (v : String) (o : QueryOutcome)
    (h0 : countTyping s.log = 0) : countTyping (run s (submitEvents v o)).log = 0 := by
  by_cases hv : jsTrim v = ""
  · simp [submitEvents, hv, run, h0]
  · cases o with
    | ok st d =>
      cases hd : d.response with
      | none =>
        simp [submitEvents, hv, hd, run, applyEvent, countTyping_append,
          countTyping_removeFirst, countTyping_singleton_msg, countTyping_singleton_typing,
          countTyping_pair_user_typing, h0]
      | some r =>
        by_cases hr : r = "" <;>
          simp [submitEvents, hv, hd, hr, run, applyEvent, countTyping_append,
            countTyping_removeFirst, countTyping_singleton_msg, countTyping_singleton_typing,
            countTyping_pair_user_typing, h0]
    | fail =>
      simp [submitEvents, hv, run, applyEvent, countTyping_append,
        countTyping_removeFirst, countTyping_singleton_msg, countTyping_singleton_typing,
        countTyping_pair_user_typing, h0]

theorem countShowInd_submit (v : String) (o : QueryOutcome) :
    (submitEvents v o).countP isShowInd = (if jsTrim v = "" then 0 else 1) := by
  by_cases hv : jsTrim v = ""
  · simp [submitEvents, hv]
  · cases o with
    | ok st d =>
      cases hd : d.response with
      | none => simp [submitEvents, hv, hd, isShowInd, List.countP_cons]
      | some r =>
        by_cases hr : r = "" <;> simp [submitEvents, hv, hd, hr, isShowInd, List.countP_cons]
    | fail => simp [submitEvents, hv, isShowInd, List.countP_cons]

theorem countRemoveInd_submit (v : String) (o : QueryOutcome) :
    (submitEvents v o).countP isRemoveInd = (if jsTrim v = "" then 0 else 1) := by
  by_cases hv : jsTrim v = ""
  · simp [submitEvents, hv]
  · cases o with
    | ok st d =>
      cases hd : d.response with
      | none => simp [submitEvents, hv, hd, isRemoveInd, List.countP_cons]
      | some r =>
        by_cases hr : r = "" <;> simp [submitEvents, hv, hd, hr, isRemoveInd, List.countP_cons]
    | fail => simp [submitEvents, hv, isRemoveInd, List.countP_cons]

theorem typing_seq_invariant (s : UIState) (calls : List (String × QueryOutcome))
    (h0 : countTyping s.log = 0) :
    maxTyping s (submitSeqEvents calls) ≤ 1 ∧
    countTyping (run s (submitSeqEvents calls)).log = 0 := by
  induction calls generalizing s with
  | nil => exact ⟨by simp [submitSeqEvents, maxTyping, h0], by simpa [submitSeqEvents, run]⟩
  | cons c cs ih =>
    have hend := countTyping_submit_end s c.1 c.2 h0
    have hmax := maxTyping_submit_le_one s c.1 c.2 h0
    have hih := ih (run s (submitEvents c.1 c.2)) hend
    constructor
    · rw [submitSeqEvents, maxTyping_append]
      exact max_le hmax hih.1
    · rw [submitSeqEvents, run_append]
      exact hih.2

/-- Claim C5: the Typing Indicator is a singleton: starting from a page with
no indicator, at every point during any sequence of submit-handler runs at
most one Typing Indicator exists and none remains between or after runs; per
run it is created once and removed exactly once for a non-empty submission
(zero times for an empty one), on every outcome. -/
theorem typing_indicator_singleton (s : UIState) (v : String) (o : QueryOutcome)
    (h0 : countTyping s.log = 0) :
    maxTyping s (submitEvents v o) ≤ 1 ∧
    (submitEvents v o).countP isShowInd = (if jsTrim v = "" then 0 else 1) ∧
    (submitEvents v o).countP isRemoveInd = (if jsTrim v = "" then 0 else 1) ∧
    countTyping (run s (submitEvents v o)).log = 0 ∧
    (∀ calls : List (String × QueryOutcome),
      maxTyping s (submitSeqEvents calls) ≤ 1 ∧
      countTyping (run s (submitSeqEvents calls)).log = 0) :=
  ⟨maxTyping_submit_le_one s v o h0, countShowInd_submit v o, countRemoveInd_submit v o,
   countTyping_submit_end s v o h0, fun calls => typing_seq_invariant s calls h0⟩

/-- Witness for C5 at concrete inputs and both outcomes. -/
theorem typing_indicator_singleton_witness :
    maxTyping initState (submitEvents "hello" QueryOutcome.fail) ≤ 1 ∧
    (submitEvents "hello" (QueryOutcome.ok 200 ⟨some "Hi!"⟩)).countP isRemoveInd = 1 := by
  constructor
  · exact (typing_indicator_singleton initState "hello" QueryOutcome.fail (by decide)).1
  · have h :=
      (typing_indicator_singleton initState "hello" (QueryOutcome.ok 200 ⟨some "Hi!"⟩)
        (by decide)).2.2.1
    simpa using h

/-- Claim C6: the toast text after a completed refresh equals the response
message field when it is a non-empty string, the refresh fallback when the
field is missing or empty, and the failure fallback on transport failure;
the toast is shown in every case. -/
theorem toast_text_matches_refresh (s : UIState) (st : Nat) (d : RefreshData) :
    (∀ m, d.message = some m → m ≠ "" →
      (run s (refreshEvents (RefreshOutcome.ok st d))).toastText = m ∧
      (run s (refreshEvents (RefreshOutcome.ok st d))).toastShow = true) ∧
    (d.message = none ∨ d.message = some "" →
      (run s (refreshEvents (RefreshOutcome.ok st d))).toastText = refreshedText ∧
      (run s (refreshEvents (RefreshOutcome.ok st d))).toastShow = true) ∧
    ((run s (refreshEvents RefreshOutcome.fail)).toastText = refreshFailText ∧
     (run s (refreshEvents RefreshOutcome.fail)).toastShow = true) := by
  refine ⟨?_, ?_, ?_⟩
  · intro m hd hm
    constructor <;> simp [refreshEvents, hd, hm, run, applyEvent]
  · intro hor
    cases hor with
    | inl hd => constructor <;> simp [refreshEvents, hd, run, applyEvent]
    | inr hd => constructor <;> simp [refreshEvents, hd, run, applyEvent]
  · constructor <;> simp [refreshEvents, run, applyEvent]

/-- Witness for C6 at concrete bodies and outcomes. -/
theorem toast_text_matches_refresh_witness :
    (run initState (refreshEvents (RefreshOutcome.ok 200 ⟨some "Synced 42 rows"⟩))).toastText
      = "Synced 42 rows" ∧
    (run initState (refreshEvents (RefreshOutcome.ok 200 ⟨none⟩))).toastText = refreshedText ∧
    (run initState (refreshEvents RefreshOutcome.fail)).toastText = refreshFailText :=
  ⟨((toast_text_matches_refresh initState 200 ⟨some "Synced 42 rows"⟩).1
      "Synced 42 rows" rfl (by decide)).1,
   ((toast_text_matches_refresh initState 200 ⟨none⟩).2.1 (Or.inl rfl)).1,
   (toast_text_matches_refresh initState 200 ⟨none⟩).2.2.1⟩

/-- Counterexample to C7 as stated: showing a second toast while one is
visible does NOT cancel the pending dismissal timer, so the second toast is
hidden when the first timer fires, before its own full duration. Concretely:
toast first at time 0, toast second at time 1000; at time 3000 (which is
before 1000 + 3000) the toast is already hidden. -/
theorem toast_timer_not_restarted :
    (fireDueTimers (applyEvent (fireDueTimers (applyEvent initState
        (UIEvent.showToastEv "first")) 1000) (UIEvent.showToastEv "second")) 3000).toastText
      = "second" ∧
    (fireDueTimers (applyEvent (fireDueTimers (applyEvent initState
        (UIEvent.showToastEv "first")) 1000) (UIEvent.showToastEv "second")) 3000).toastShow
      = false ∧
    (3000 : Nat) < 1000 + 3000 := by
  decide

/-- Claim C7 amended: showToast replaces the toast text, makes the toast
visible, and schedules one more dismissal at a fixed 3000 ms after the call
without cancelling pending timers; with no pending timer the toast stays
visible until its own timer fires and is dismissed once it has; but the
toast is dismissed as soon as ANY pending timer fires, so a toast shown
while an earlier timer is pending can be hidden before its full duration. -/
theorem show_toast_sets_and_schedules (s : UIState) (m : String) (t : Nat) :
    (applyEvent s (UIEvent.showToastEv m)).toastText = m ∧
    (applyEvent s (UIEvent.showToastEv m)).toastShow = true ∧
    (applyEvent s (UIEvent.showToastEv m)).toastTimers = s.toastTimers ++ [s.now + 3000] ∧
    (s.toastTimers = [] → s.now ≤ t → t < s.now + 3000 →
      (fireDueTimers (applyEvent s (UIEvent.showToastEv m)) t).toastShow = true) ∧
    (s.toastTimers = [] → s.now + 3000 ≤ t →
      (fireDueTimers (applyEvent s (UIEvent.showToastEv m)) t).toastShow = false) ∧
    (∀ dl ∈ s.toastTimers, dl ≤ t →
      (fireDueTimers (applyEvent s (UIEvent.showToastEv m)) t).toastShow = false) := by
  refine ⟨by simp [applyEvent], by simp [applyEvent], by simp [applyEvent], ?_, ?_, ?_⟩
  · intro he h1 h2
    simp [fireDueTimers, applyEvent, he]
    omega
  · intro he h2
    simp [fireDueTimers, applyEvent, he, h2]
  · intro dl hdl hle
    have hp : ((applyEvent s (UIEvent.showToastEv m)).toastTimers.any
        (fun d => decide (d ≤ t))) = true := by
      simp [applyEvent, List.any_append, List.any_eq_true]
      exact Or.inl ⟨dl, hdl, hle⟩
    simp [fireDueTimers, hp]

/-- Witness for C7 amended: a toast shown on a fresh page at time 0 is still
visible at 2999 and hidden at 3000. -/
theorem show_toast_sets_and_schedules_witness :
    (fireDueTimers (applyEvent initState (UIEvent.showToastEv "done")) 2999).toastShow
      = true ∧
    (fireDueTimers (applyEvent initState (UIEvent.showToastEv "done")) 3000).toastShow
      = false :=
  ⟨(show_toast_sets_and_schedules initState "done" 2999).2.2.2.1 rfl (by decide) (by decide),
   (show_toast_sets_and_schedules initState "done" 3000).2.2.2.2.1 rfl (by decide)⟩

/-- Claim C8: the projection of each handler trace to UI-mutation kinds is
the same fixed list on every outcome: for submit, indicator removal precedes
the ai append, which precedes input re-enable and focus; for refresh, the
toast display precedes control re-enable and spin removal. -/
theorem ui_mutation_order_fixed (v : String) (o : QueryOutcome) (ro : RefreshOutcome)
    (hv : jsTrim v ≠ "") :
    (submitEvents v o).filterMap mutKind
      = [MutKind.appendUserK, MutKind.clearK, MutKind.disableInputK, MutKind.showIndK,
         MutKind.removeIndK, MutKind.appendAiK, MutKind.enableInputK, MutKind.focusK] ∧
    (refreshEvents ro).filterMap mutKind
      = [MutKind.disableRefreshK, MutKind.spinOnK, MutKind.toastK,
         MutKind.enableRefreshK, MutKind.spinOffK] := by
  constructor
  · cases o with
    | ok st d =>
      cases hd : d.response with
      | none => simp [submitEvents, hv, hd, mutKind]
      | some r => by_cases hr : r = "" <;> simp [submitEvents, hv, hd, hr, mutKind]
    | fail => simp [submitEvents, hv, mutKind]
  · cases ro with
    | ok st d =>
      cases hd : d.message with
      | none => simp [refreshEvents, hd, mutKind]
      | some m => by_cases hm : m = "" <;> simp [refreshEvents, hd, hm, mutKind]
    | fail => simp [refreshEvents, mutKind]

/-- Witness for C8 at a concrete input and outcomes. -/
theorem ui_mutation_order_fixed_witness :
    (submitEvents "hello" QueryOutcome.fail).filterMap mutKind
      = [MutKind.appendUserK, MutKind.clearK, MutKind.disableInputK, MutKind.showIndK,
         MutKind.removeIndK, MutKind.appendAiK, MutKind.enableInputK, MutKind.focusK] :=
  (ui_mutation_order_fixed "hello" QueryOutcome.fail RefreshOutcome.fail (by decide)).1

theorem submitEventsFull_jobject (v : String) (st : Nat) (r : Option String) :
    submitEventsFull v (QueryResult.completed st (ChatBody.jobject r))
      = submitEvents v (QueryOutcome.ok st ⟨r⟩) := by
  cases r <;> rfl

theorem submitEventsFull_thrown (v : String) :
    submitEventsFull v QueryResult.thrown = submitEvents v QueryOutcome.fail := rfl

/-- Counterexample to C9 as stated: a response whose body parses as JSON
(here the JSON literal null, with neither the fetch nor the parse throwing)
still reaches the transport-failure branch, because data.response throws a
TypeError on the null body inside the try block: the handler logs to the
console and renders the connectivity fallback text, not a normal ai
Message. -/
theorem null_body_reaches_catch :
    (submitEventsFull "hello" (QueryResult.completed 200 ChatBody.jnull)).countP isLogError
      = 1 ∧
    (run initState (submitEventsFull "hello"
        (QueryResult.completed 200 ChatBody.jnull))).log
      = [LogEntry.message "hello" Sender.user,
         LogEntry.message connectFailText Sender.ai] ∧
    (run initState (submitEventsFull "hello"
        (QueryResult.completed 200 ChatBody.jnull))).consoleErrors = 1 := by
  decide

/-- Claim C9 amended: success versus failure of a query is decided solely
by the parsed JSON body, never by the HTTP status code: the submit trace is
identical for any two status codes; a response of any status (e.g. 500)
whose body is an object with a non-empty response field is rendered as a
normal ai Message; and the transport-failure branch (console diagnostics)
is reached exactly when the fetch or the JSON parse throws or the completed
body is the JSON literal null (whose property access throws) — never for a
completed object or other non-null body. -/
theorem status_code_ignored (s : UIState) (v : String) (st1 st2 st : Nat) (b : ChatBody)
    (h0 : countTyping s.log = 0) (hv : jsTrim v ≠ "") :
    submitEventsFull v (QueryResult.completed st1 b)
      = submitEventsFull v (QueryResult.completed st2 b) ∧
    (∀ r, r ≠ "" →
      (run s (submitEventsFull v
          (QueryResult.completed st (ChatBody.jobject (some r))))).log
        = s.log ++ [LogEntry.message (jsTrim v) Sender.user, LogEntry.message r Sender.ai]) ∧
    (∀ ro : Option String,
      (submitEventsFull v (QueryResult.completed st (ChatBody.jobject ro))).countP isLogError
        = 0) ∧
    (submitEventsFull v (QueryResult.completed st ChatBody.jother)).countP isLogError = 0 ∧
    (submitEventsFull v (QueryResult.completed st ChatBody.jnull)).countP isLogError = 1 ∧
    (submitEventsFull v QueryResult.thrown).countP isLogError = 1 := by
  refine ⟨rfl, ?_, ?_, ?_, ?_, ?_⟩
  · intro r hr
    simp [submitEventsFull, chatBodyEvents, hv, hr, run, applyEvent,
      removeFirst_append_of_zero, h0, removeFirst_user_typing]
  · intro ro
    cases ro with
    | none => simp [submitEventsFull, chatBodyEvents, hv, isLogError, List.countP_cons]
    | some r =>
      by_cases hr : r = "" <;>
        simp [submitEventsFull, chatBodyEvents, hv, hr, isLogError, List.countP_cons]
  · simp [submitEventsFull, chatBodyEvents, hv, isLogError, List.countP_cons]
  · simp [submitEventsFull, chatBodyEvents, hv, isLogError, List.countP_cons]
  · simp [submitEventsFull, hv, isLogError, List.countP_cons]

/-- Witness for C9 amended: a 500 response whose object body carries a
non-empty response field renders a normal ai Message, with the same trace
as a 200 response. -/
theorem status_code_ignored_witness :
    (run initState (submitEventsFull "hello"
        (QueryResult.completed 500 (ChatBody.jobject (some "Hi!"))))).log
      = [LogEntry.message "hello" Sender.user, LogEntry.message "Hi!" Sender.ai] ∧
    submitEventsFull "hello" (QueryResult.completed 500 (ChatBody.jobject (some "Hi!")))
      = submitEventsFull "hello" (QueryResult.completed 200 (ChatBody.jobject (some "Hi!"))) := by
  have h := status_code_ignored initState "hello" 500 200 500
    (ChatBody.jobject (some "Hi!")) (by decide) (by decide)
  exact ⟨by simpa using h.2.1 "Hi!" (by decide), h.1⟩

/-- Claim C10: addMessage interpolates the text into its innerHTML template
with no escaping, so the message element receives the raw string: it differs
from the escaped insertion on markup input, and the displayed content is the
HTML interpretation of the string (tags are parsed as markup), not the
literal text. -/
theorem addMessage_unescaped_html (text : String) :
    messageInnerHTML text = "<div class=\"content\">" ++ text ++ "</div>" ∧
    messageInnerHTML "<img src=x onerror=alert(1)>"
      ≠ "<div class=\"content\">" ++ htmlEscape "<img src=x onerror=alert(1)>" ++ "</div>" ∧
    displayedMessageText "<b>hello</b>" = "hello" ∧
    "<b>hello</b>" ≠ ("hello" : String) :=
  ⟨rfl, by decide, by decide, by decide⟩

end ChatWidget
